import Mathlib

/-! # digo: a Discord bot with a message log and a MongoDB connection

A shallow embedding of `digo/cmd/bot/main.go` and `digo/internal/database/db.go`.

Every Go function becomes a Lean function from the answers of the outside world
(environment, gateway, file system, MongoDB driver, signals) to the sequence of
effects the function performs, in program order, and to the way it ends
(returns, panics, exits the process, or blocks forever).  Package level
variables (`db.Client`, `db.DB`) are passed explicitly as a state.
-/

namespace Digo

/-! ## Go values -/

/-- A Go string is an immutable sequence of bytes. -/
abbrev GoString := List UInt8

/-- The bytes (UTF-8) of a string literal of the source. -/
def lit (s : String) : GoString := s.toList.flatMap String.utf8EncodeChar

/-- A non-nil Go `error`, identified by the text its `Error()` method returns.
A nil error is `none : Option GoError`. -/
structure GoError where
  text : GoString
deriving DecidableEq, Repr

/-- Values a goroutine can panic with. -/
inductive Panic where
  /-- The run-time error "invalid memory address or nil pointer dereference". -/
  | nilDereference
  /-- The run-time error "index out of range". -/
  | indexOutOfRange
  /-- An explicit `panic(err)` carrying an error value. -/
  | value (err : GoError)
deriving DecidableEq, Repr

/-- How a call ends. -/
inductive Outcome (α : Type) where
  /-- The function returned normally with a result. -/
  | returned (a : α)
  /-- The function panicked. -/
  | panicked (p : Panic)
  /-- The process was terminated by `os.Exit code`. -/
  | exited (code : Nat)
  /-- The function blocks forever. -/
  | blocked
deriving DecidableEq, Repr

/-- Flags of `os.OpenFile`; a flag word `a|b|c` is the list of its flags. -/
inductive OpenFlag where
  | O_APPEND
  | O_CREATE
  | O_WRONLY
deriving DecidableEq, Repr

/-- Gateway intents of discordgo; `a|b` is the list of its intents. -/
inductive Intent where
  | IntentsGuildMessages
  | IntentsMessageContent
deriving DecidableEq, Repr

/-- The signals `main` subscribes to. -/
inductive Signal where
  | SIGINT
  | SIGTERM
deriving DecidableEq, Repr

/-- The functions `main` registers with the gateway session. -/
inductive Handler where
  | ready
  | messageCreate
  | commandHandler
deriving DecidableEq, Repr

/-- Observable actions of the program, one per call into the outside world. -/
inductive Effect where
  /-- Go `os.Getenv(key)`. -/
  | getenv (key : GoString)
  /-- Go `log.Fatal(...)`: prints the message, then `os.Exit(1)`. -/
  | logFatal (msg : GoString)
  /-- Go `log.Printf(...)`: prints the message to the operator log, then continues. -/
  | logPrintf (msg : GoString)
  /-- Go `log.Println(...)`. -/
  | logPrintln (msg : GoString)
  /-- Go `fmt.Println(...)` on standard output. -/
  | fmtPrintln (msg : GoString)
  /-- Go `fmt.Printf(...)` on standard output. -/
  | fmtPrintf (msg : GoString)
  /-- Go `discordgo.New(auth)`. -/
  | discordNew (auth : GoString)
  /-- The assignment `dg.Identify.Intents = ...`. -/
  | setIntents (intents : List Intent)
  /-- Go `dg.AddHandler(h)`. -/
  | addHandler (h : Handler)
  /-- Go `dg.Open()`. -/
  | gatewayOpen
  /-- Go `dg.Close()`. -/
  | gatewayClose
  /-- Go `mongo.Connect(ctx, options.Client().ApplyURI(uri))`, `ctx` timing out after
  `timeoutSec` seconds. -/
  | mongoConnect (timeoutSec : Nat) (uri : GoString)
  /-- Go `client.Ping(ctx, nil)`. -/
  | mongoPing (timeoutSec : Nat)
  /-- Go `Client.Disconnect(ctx)`. -/
  | mongoDisconnect (timeoutSec : Nat)
  /-- Go `signal.Notify(sc, sigs...)`. -/
  | signalNotify (sigs : List Signal)
  /-- The receive `<-sc` completed with this signal. -/
  | signalReceive (sig : Signal)
  /-- Go `os.OpenFile(path, flag, perm)`. -/
  | openFile (path : GoString) (flag : List OpenFlag) (perm : Nat)
  /-- Go `f.WriteString(s)`. -/
  | writeString (s : GoString)
  /-- Go `f.Close()`. -/
  | fileClose
deriving DecidableEq, Repr

/-- The run of a function: the effects it performed, in order, and how it ended. -/
structure Run (α : Type) where
  trace : List Effect
  outcome : Outcome α
deriving DecidableEq, Repr

/-! ## The fragment of package `fmt` the program uses -/

/-- Text of the operands left over when the format is exhausted, as `fmt` prints
them for string operands: `string=a, string=b`. -/
def extraOperands : List GoString → GoString
  | [] => []
  | [a] => lit "string=" ++ a
  | a :: rest => lit "string=" ++ a ++ lit ", " ++ extraOperands rest

/-- Scanner behind `Sprintf`; `verb` tells that the previous byte was `%`. -/
def sprintfAux : Bool → GoString → List GoString → GoString
  | false, [], [] => []
  | false, [], a :: rest => lit "%!(EXTRA " ++ extraOperands (a :: rest) ++ lit ")"
  | true, [], _ => lit "%!(NOVERB)"
  | false, c :: fmt, args =>
    if c = '%'.toUInt8 then sprintfAux true fmt args else c :: sprintfAux false fmt args
  | true, c :: fmt, args =>
    if c = '%'.toUInt8 then c :: sprintfAux false fmt args
    else match args with
      | [] => lit "%!" ++ [c] ++ lit "(MISSING)" ++ sprintfAux false fmt []
      | a :: rest =>
        if c = 's'.toUInt8 ∨ c = 'v'.toUInt8 then a ++ sprintfAux false fmt rest
        else lit "%!" ++ [c] ++ lit "(string=" ++ a ++ lit ")" ++ sprintfAux false fmt rest

/-- Go `fmt.Sprintf(format, args...)` for string operands (an `error` operand is given
by its `Error()` text) and verbs written without flags or width: `%s` and `%v`
print the operand, `%%` prints a percent sign, every other byte is copied. -/
def Sprintf (format : GoString) (args : List GoString) : GoString :=
  sprintfAux false format args

/-! ## Package `db` (`internal/database/db.go`) -/

namespace Db

/-- A connected `*mongo.Client`, as handed out by the driver. -/
structure Client where
  handle : Nat
deriving DecidableEq, Repr

/-- A `*mongo.Database`: the client it belongs to and its name. -/
structure Database where
  client : Client
  name : GoString
deriving DecidableEq, Repr

/-- A `*mongo.Collection`: the database it belongs to and its name. -/
structure Collection where
  db : Database
  name : GoString
deriving DecidableEq, Repr

/-- Go `client.Database(name)`. -/
def Client.Database (c : Client) (name : GoString) : Database := ⟨c, name⟩

/-- Go `db.Collection(name)` on a receiver that may be nil.  The driver's method reads
the fields of its receiver to build the handle, so a nil receiver is a nil pointer
dereference. -/
def Collection.of (db : Option Database) (name : GoString) : Outcome Collection :=
  match db with
  | none => .panicked .nilDereference
  | some d => .returned ⟨d, name⟩

/-- The package variables `Client` and `DB`; `none` is the nil pointer. -/
structure State where
  Client : Option Client
  DB : Option Database
deriving DecidableEq, Repr

/-- The package state at program start: both variables nil. -/
def State.initial : State := ⟨none, none⟩

/-- Answers of the MongoDB driver. -/
structure Driver where
  /-- Go `mongo.Connect` with the given timeout and URI. -/
  connect : Nat → GoString → Except GoError Client
  /-- Go `client.Ping` with the given timeout; `none` is a nil error. -/
  ping : Nat → Client → Option GoError
  /-- Go `client.Disconnect` with the given timeout. -/
  disconnect : Nat → Client → Option GoError

/-- What `ConnectToDB` leaves behind: effects, package state, returned error. -/
structure ConnectResult where
  trace : List Effect
  state : State
  err : Option GoError
deriving DecidableEq, Repr

/-- Go `ConnectToDB`: connect, ping, then publish the client and its database "hots". -/
def ConnectToDB (drv : Driver) (st : State) : ConnectResult :=
  let uri := lit "mongodb://mongodb:27017"
  match drv.connect 10 uri with
  | .error err => ⟨[.mongoConnect 10 uri], st, some err⟩
  | .ok client =>
    match drv.ping 10 client with
    | some err => ⟨[.mongoConnect 10 uri, .mongoPing 10], st, some err⟩
    | none =>
      ⟨[.mongoConnect 10 uri, .mongoPing 10,
          .logPrintln (lit "Successfully connected to MongoDB")],
        ⟨some client, some (client.Database (lit "hots"))⟩, none⟩

/-- Go `DisconnectDB`: disconnects the client when there is one. -/
def DisconnectDB (drv : Driver) (st : State) : List Effect × Option GoError :=
  match st.Client with
  | some client =>
    match drv.disconnect 10 client with
    | some err => ([.mongoDisconnect 10], some err)
    | none => ([.mongoDisconnect 10], none)
  | none => ([], none)

/-- Go `GetCollection`: `DB.Collection(collectionName)`, with no check of `DB`. -/
def GetCollection (st : State) (collectionName : GoString) : Outcome Collection :=
  Collection.of st.DB collectionName

/-- Package states the program can be in: the initial one, and those left by any
sequence of `ConnectToDB` calls (the only function that assigns the variables). -/
inductive Reachable : State → Prop where
  | initial : Reachable State.initial
  | connect (drv : Driver) (st : State) : Reachable st → Reachable (ConnectToDB drv st).state

end Db

/-! ## Package `main` (`cmd/bot/main.go`) -/

namespace Bot

/-- A `discordgo.User`, with the fields the program reads. -/
structure User where
  ID : GoString
  Username : GoString
deriving DecidableEq, Repr

/-- A `discordgo.State`; `User` is a pointer. -/
structure State where
  User : Option User
deriving DecidableEq, Repr

/-- A `discordgo.Session`; `State` is a pointer. -/
structure Session where
  State : Option State
deriving DecidableEq, Repr

/-- A `discordgo.Message`, with the fields the program reads; `Author` is a pointer. -/
structure Message where
  ChannelID : GoString
  Author : Option User
  Content : GoString
deriving DecidableEq, Repr

/-- A `discordgo.MessageCreate`: it embeds a pointer to the message. -/
structure MessageCreate where
  Message : Option Message
deriving DecidableEq, Repr

/-- Answers of the file system to `messageCreate`; `none` is a nil error. -/
structure FileSys where
  /-- Go `os.OpenFile(path, flag, perm)`. -/
  openFile : GoString → List OpenFlag → Nat → Option GoError
  /-- Go `f.WriteString(s)` on the opened file. -/
  writeString : GoString → Option GoError

/-- The package variable `commands`. -/
def commands : List GoString := [lit "test", lit "hots", lit "music", lit "recommend"]

/-- Go `ready`: announces the login, then one line per declared command. -/
def ready (s : Session) : Run Unit :=
  match s.State with
  | none => ⟨[], .panicked .nilDereference⟩
  | some st =>
    match st.User with
    | none => ⟨[], .panicked .nilDereference⟩
    | some user =>
      ⟨.fmtPrintf (Sprintf (lit "We have logged in as %s\n") [user.Username]) ::
          commands.map (fun cmd => .fmtPrintf (Sprintf (lit "Loading %s command module...\n") [cmd])),
        .returned ()⟩

/-- Go `messageCreate`: drops the bot's own messages, appends every other message to
the log file.  The deferred `f.Close()` runs when the function returns, after the
write and its diagnostic. -/
def messageCreate (fs : FileSys) (s : Session) (m : MessageCreate) : Run Unit :=
  match m.Message with
  | none => ⟨[], .panicked .nilDereference⟩
  | some msg =>
    match msg.Author with
    | none => ⟨[], .panicked .nilDereference⟩
    | some author =>
      match s.State with
      | none => ⟨[], .panicked .nilDereference⟩
      | some st =>
        match st.User with
        | none => ⟨[], .panicked .nilDereference⟩
        | some self =>
          if author.ID = self.ID then ⟨[], .returned ()⟩
          else
            let logMessage := Sprintf (lit "%s > (%s) %s: %s\n")
              [msg.ChannelID, author.ID, author.Username, msg.Content]
            let path := lit "discord_chatting_log.txt"
            let flag := [OpenFlag.O_APPEND, OpenFlag.O_CREATE, OpenFlag.O_WRONLY]
            match fs.openFile path flag 0o644 with
            | some err =>
              ⟨[.openFile path flag 0o644,
                  .logPrintf (Sprintf (lit "Error opening log file: %v\n") [err.text])],
                .returned ()⟩
            | none =>
              match fs.writeString logMessage with
              | some err =>
                ⟨[.openFile path flag 0o644, .writeString logMessage,
                    .logPrintf (Sprintf (lit "Error writing to log file: %v\n") [err.text]),
                    .fileClose],
                  .returned ()⟩
              | none =>
                ⟨[.openFile path flag 0o644, .writeString logMessage, .fileClose],
                  .returned ()⟩

/-- The two ways `commandHandler` returns. -/
inductive CommandExit where
  /-- The `return` inside the `if`: the content is not a command candidate. -/
  | notCommand
  /-- Control passed the `if` and reached the place of the command routing logic. -/
  | routing
deriving DecidableEq, Repr

/-- Go `commandHandler`: `len(m.Content) == 0 || m.Content[0] != '!'` returns at once,
anything else reaches the routing point.  `||` evaluates its right operand only
when the left one is false; indexing past the end panics. -/
def commandHandler (_s : Session) (m : MessageCreate) : Run CommandExit :=
  match m.Message with
  | none => ⟨[], .panicked .nilDereference⟩
  | some msg =>
    if msg.Content.length = 0 then ⟨[], .returned .notCommand⟩
    else
      match msg.Content[0]? with
      | none => ⟨[], .panicked .indexOutOfRange⟩
      | some b =>
        if b ≠ '!'.toUInt8 then ⟨[], .returned .notCommand⟩
        else ⟨[], .returned .routing⟩

/-- Go `connectToDB`: forwards to `db.ConnectToDB`. -/
def connectToDB (drv : Db.Driver) (st : Db.State) : Db.ConnectResult :=
  Db.ConnectToDB drv st

/-- Answers of the outside world to `main`. -/
structure World where
  /-- Go `os.Getenv`; an unset variable reads as the empty string. -/
  getenv : GoString → GoString
  /-- Error of `discordgo.New`, `none` when the session is created. -/
  discordNew : GoString → Option GoError
  /-- Error of `dg.Open()`. -/
  gatewayOpen : Option GoError
  /-- The MongoDB driver. -/
  mongo : Db.Driver
  /-- The first SIGINT or SIGTERM delivered to the process, `none` when none ever is. -/
  signal : Option Signal

/-- The run of `main` together with package `db`'s variables at its end. -/
structure MainRun where
  trace : List Effect
  outcome : Outcome Unit
  db : Db.State
deriving DecidableEq, Repr

/-- Go `main`. `log.Fatal` ends the process with status 1; its operands are printed
as by `fmt.Sprint`, which puts no space after a string operand, so the message is the
literal followed by the text of the error.  The receive `<-sc` blocks until a signal
arrives; the result of `dg.Close()` is discarded. -/
def main (w : World) (db : Db.State) : MainRun :=
  let key := lit "DISCORD_TOKEN"
  let token := w.getenv key
  if token = [] then
    ⟨[.getenv key, .logFatal (lit "DISCORD_TOKEN must be set in .env file")], .exited 1, db⟩
  else
    let auth := lit "Bot " ++ token
    match w.discordNew auth with
    | some err =>
      ⟨[.getenv key, .discordNew auth,
          .logFatal (lit "Error creating Discord session: " ++ err.text)], .exited 1, db⟩
    | none =>
      let setup : List Effect :=
        [.getenv key, .discordNew auth,
          .setIntents [.IntentsGuildMessages, .IntentsMessageContent],
          .addHandler .ready, .addHandler .messageCreate, .addHandler .commandHandler,
          .gatewayOpen]
      match w.gatewayOpen with
      | some err =>
        ⟨setup ++ [.logFatal (lit "Error opening connection: " ++ err.text)], .exited 1, db⟩
      | none =>
        let r := connectToDB w.mongo db
        match r.err with
        | some err =>
          ⟨setup ++ r.trace ++ [.logFatal (lit "Error connecting to database: " ++ err.text)],
            .exited 1, r.state⟩
        | none =>
          let running := setup ++ r.trace ++
            [.fmtPrintln (lit "Bot is now running. Press CTRL-C to exit."),
              .signalNotify [.SIGINT, .SIGTERM]]
          match w.signal with
          | none => ⟨running, .blocked, r.state⟩
          | some sig => ⟨running ++ [.signalReceive sig, .gatewayClose], .returned (), r.state⟩

/-! ### Reading a trace -/

/-- The strings written to the log file, in order. -/
def writes : List Effect → List GoString
  | [] => []
  | .writeString s :: rest => s :: writes rest
  | _ :: rest => writes rest

/-- Number of `log.Printf` diagnostics. -/
def diagnostics (t : List Effect) : Nat :=
  t.countP (fun e => match e with | .logPrintf _ => true | _ => false)

/-- Number of `os.OpenFile` calls. -/
def opens (t : List Effect) : Nat :=
  t.countP (fun e => match e with | .openFile _ _ _ => true | _ => false)

/-- Number of `f.Close()` calls. -/
def closes (t : List Effect) : Nat :=
  t.countP (fun e => match e with | .fileClose => true | _ => false)

/-- Calls into the gateway client: session creation, configuration, handler
registration, open and close. -/
def isGatewayCall : Effect → Bool
  | .discordNew _ => true
  | .setIntents _ => true
  | .addHandler _ => true
  | .gatewayOpen => true
  | .gatewayClose => true
  | _ => false

/-- Calls into the MongoDB driver. -/
def isStorageCall : Effect → Bool
  | .mongoConnect _ _ => true
  | .mongoPing _ => true
  | .mongoDisconnect _ => true
  | _ => false

/-! ### Inputs with all pointers set -/

/-- A session whose state holds the bot's own user. -/
def Session.of (selfID selfName : GoString) : Session :=
  ⟨some ⟨some ⟨selfID, selfName⟩⟩⟩

/-- A MessageCreate event carrying a message with an author. -/
def MessageCreate.of (channelID authorID authorName content : GoString) : MessageCreate :=
  ⟨some ⟨channelID, some ⟨authorID, authorName⟩, content⟩⟩

/-- A file system on which every open and every write succeeds. -/
def FileSys.healthy : FileSys := ⟨fun _ _ _ => none, fun _ => none⟩

/-- A file system on which the log file cannot be opened. -/
def FileSys.readOnly : FileSys := ⟨fun _ _ _ => some ⟨lit "permission denied"⟩, fun _ => none⟩

/-- A MongoDB driver that connects (always to the client with the given handle),
answers pings and disconnects without error. -/
def Driver.up (handle : Nat) : Db.Driver :=
  ⟨fun _ _ => .ok ⟨handle⟩, fun _ _ => none, fun _ _ => none⟩

/-- A world without a token in the environment. -/
def World.noToken : World :=
  ⟨fun _ => [], fun _ => none, none, Driver.up 1, some .SIGINT⟩

/-- A world in which startup succeeds and SIGTERM arrives. -/
def World.healthy : World :=
  ⟨fun key => if key = lit "DISCORD_TOKEN" then lit "secret" else [], fun _ => none, none,
    Driver.up 1, some .SIGTERM⟩

end Bot

/-! ## Lemmas on formatting -/

/-- The log format applied to its four operands is their concatenation with the
literal pieces of the format. -/
theorem Sprintf_logFormat (a b c d : GoString) :
    Sprintf (lit "%s > (%s) %s: %s\n") [a, b, c, d]
      = a ++ lit " > (" ++ b ++ lit ") " ++ c ++ lit ": " ++ d ++ lit "\n" := by
  have h : Sprintf (lit "%s > (%s) %s: %s\n") [a, b, c, d]
      = a ++ (lit " > (" ++ (b ++ (lit ") " ++ (c ++ (lit ": " ++ (d ++ lit "\n")))))) := rfl
  rw [h]
  simp only [List.append_assoc]

/-- Unfolding of `messageCreate` on a message of another user. -/
theorem Bot.messageCreate_other (fs : Bot.FileSys)
    (channelID authorID authorName content selfID selfName : GoString)
    (hself : authorID ≠ selfID) :
    Bot.messageCreate fs (Bot.Session.of selfID selfName)
        (Bot.MessageCreate.of channelID authorID authorName content)
      = (let logMessage :=
            channelID ++ lit " > (" ++ authorID ++ lit ") " ++ authorName ++ lit ": "
              ++ content ++ lit "\n"
          let path := lit "discord_chatting_log.txt"
          let flag := [OpenFlag.O_APPEND, OpenFlag.O_CREATE, OpenFlag.O_WRONLY]
          match fs.openFile path flag 0o644 with
          | some err =>
            ⟨[.openFile path flag 0o644,
                .logPrintf (Sprintf (lit "Error opening log file: %v\n") [err.text])],
              .returned ()⟩
          | none =>
            match fs.writeString logMessage with
            | some err =>
              ⟨[.openFile path flag 0o644, .writeString logMessage,
                  .logPrintf (Sprintf (lit "Error writing to log file: %v\n") [err.text]),
                  .fileClose],
                .returned ()⟩
            | none =>
              ⟨[.openFile path flag 0o644, .writeString logMessage, .fileClose],
                .returned ()⟩) := by
  simp only [Bot.messageCreate, Bot.Session.of, Bot.MessageCreate.of, if_neg hself,
    Sprintf_logFormat]

/-- No path of `ConnectToDB` disconnects the client. -/
theorem Db.ConnectToDB_never_disconnects (drv : Db.Driver) (st : Db.State) (t : Nat) :
    Effect.mongoDisconnect t ∉ (Db.ConnectToDB drv st).trace := by
  unfold Db.ConnectToDB
  simp only []
  split
  · simp
  · split <;> simp

/-- An error returned by `ConnectToDB` leaves the package variables as they were. -/
theorem Db.ConnectToDB_state_of_error (drv : Db.Driver) (st : Db.State)
    (h : (Db.ConnectToDB drv st).err ≠ none) : (Db.ConnectToDB drv st).state = st := by
  unfold Db.ConnectToDB at h ⊢
  simp only [] at h ⊢
  cases hc : drv.connect 10 (lit "mongodb://mongodb:27017") with
  | error e0 => rfl
  | ok c =>
    cases hp : drv.ping 10 c with
    | some e1 => simp only [hp]
    | none => simp [hc, hp] at h

/-- Every reachable package state is the initial one or the state left by a
successful `ConnectToDB`. -/
theorem Db.Reachable.initial_or_connected {st : Db.State} (h : Db.Reachable st) :
    st = Db.State.initial ∨
      ∃ drv st0, (Db.ConnectToDB drv st0).err = none ∧ (Db.ConnectToDB drv st0).state = st := by
  induction h with
  | initial => exact Or.inl rfl
  | connect drv st0 _ ih =>
    by_cases herr : (Db.ConnectToDB drv st0).err = none
    · exact Or.inr ⟨drv, st0, herr, rfl⟩
    · rw [Db.ConnectToDB_state_of_error drv st0 herr]
      exact ih

/-! ## The message logger -/

namespace Bot

/-- C1. For a message whose author is not the bot itself, every string that
`messageCreate` writes to the log file is
`channelID ++ " > (" ++ authorID ++ ") " ++ authorName ++ ": " ++ content ++ "\n"`;
when the log file opens the function writes exactly once, exactly that string, and
the file it opened is `discord_chatting_log.txt` in append/create/write-only mode;
when the file does not open nothing is written. -/
theorem messageCreate_writes_record (fs : FileSys)
    (channelID authorID authorName content selfID selfName : GoString)
    (hself : authorID ≠ selfID) :
    (∀ x ∈ writes (messageCreate fs (Session.of selfID selfName)
          (MessageCreate.of channelID authorID authorName content)).trace,
        x = channelID ++ lit " > (" ++ authorID ++ lit ") " ++ authorName ++ lit ": "
              ++ content ++ lit "\n") ∧
    (fs.openFile (lit "discord_chatting_log.txt")
          [OpenFlag.O_APPEND, OpenFlag.O_CREATE, OpenFlag.O_WRONLY] 0o644 = none →
      writes (messageCreate fs (Session.of selfID selfName)
          (MessageCreate.of channelID authorID authorName content)).trace
        = [channelID ++ lit " > (" ++ authorID ++ lit ") " ++ authorName ++ lit ": "
              ++ content ++ lit "\n"]) ∧
    (fs.openFile (lit "discord_chatting_log.txt")
          [OpenFlag.O_APPEND, OpenFlag.O_CREATE, OpenFlag.O_WRONLY] 0o644 ≠ none →
      writes (messageCreate fs (Session.of selfID selfName)
          (MessageCreate.of channelID authorID authorName content)).trace = []) := by
  rw [messageCreate_other fs channelID authorID authorName content selfID selfName hself]
  cases hopen : fs.openFile (lit "discord_chatting_log.txt")
      [OpenFlag.O_APPEND, OpenFlag.O_CREATE, OpenFlag.O_WRONLY] 0o644 with
  | some err => simp [hopen, writes]
  | none =>
    cases hwrite : fs.writeString (channelID ++ lit " > (" ++ authorID ++ lit ") "
        ++ authorName ++ lit ": " ++ content ++ lit "\n") with
    | some err => simp only [hopen, hwrite]; simp [writes]
    | none => simp only [hopen, hwrite]; simp [writes]

/-- The event of the specification: channel C1, author U1 named alice, content hello,
logged as the line "C1 > (U1) alice: hello" followed by a newline. -/
theorem messageCreate_writes_record_witness :
    lit "U1" ≠ lit "B0" ∧
    writes (messageCreate FileSys.healthy (Session.of (lit "B0") (lit "gogo"))
        (MessageCreate.of (lit "C1") (lit "U1") (lit "alice") (lit "hello"))).trace
      = [lit "C1 > (U1) alice: hello\n"] :=
  ⟨by decide,
    (messageCreate_writes_record FileSys.healthy (lit "C1") (lit "U1") (lit "alice")
      (lit "hello") (lit "B0") (lit "gogo") (by decide)).2.1 rfl⟩

/-- C2. For a message whose author ID is the bot's own user ID, `messageCreate`
returns at once: it performs no effect at all, so it opens no file and writes
nothing, whatever the channel, the author name and the content are. -/
theorem messageCreate_self_is_silent (fs : FileSys)
    (channelID selfID authorName content selfName : GoString) :
    messageCreate fs (Session.of selfID selfName)
        (MessageCreate.of channelID selfID authorName content) = ⟨[], .returned ()⟩ ∧
    opens (messageCreate fs (Session.of selfID selfName)
        (MessageCreate.of channelID selfID authorName content)).trace = 0 ∧
    writes (messageCreate fs (Session.of selfID selfName)
        (MessageCreate.of channelID selfID authorName content)).trace = [] := by
  have h : messageCreate fs (Session.of selfID selfName)
      (MessageCreate.of channelID selfID authorName content) = ⟨[], .returned ()⟩ := by
    simp [messageCreate, Session.of, MessageCreate.of]
  rw [h]
  exact ⟨rfl, rfl, rfl⟩

/-- C9. For a message of another user, `messageCreate` returns normally whatever the
open and the write answer, and opens the log file once.  When the open fails it
prints one diagnostic, writes nothing and closes nothing.  When the open succeeds
it writes once and closes once, the close being its last effect, and it prints one
diagnostic when the write fails and none when the write succeeds. -/
theorem messageCreate_logging_is_best_effort (fs : FileSys)
    (channelID authorID authorName content selfID selfName : GoString)
    (hself : authorID ≠ selfID) :
    (messageCreate fs (Session.of selfID selfName)
        (MessageCreate.of channelID authorID authorName content)).outcome = .returned () ∧
    opens (messageCreate fs (Session.of selfID selfName)
        (MessageCreate.of channelID authorID authorName content)).trace = 1 ∧
    (fs.openFile (lit "discord_chatting_log.txt")
          [OpenFlag.O_APPEND, OpenFlag.O_CREATE, OpenFlag.O_WRONLY] 0o644 ≠ none →
      diagnostics (messageCreate fs (Session.of selfID selfName)
          (MessageCreate.of channelID authorID authorName content)).trace = 1 ∧
      (writes (messageCreate fs (Session.of selfID selfName)
          (MessageCreate.of channelID authorID authorName content)).trace).length = 0 ∧
      closes (messageCreate fs (Session.of selfID selfName)
          (MessageCreate.of channelID authorID authorName content)).trace = 0) ∧
    (fs.openFile (lit "discord_chatting_log.txt")
          [OpenFlag.O_APPEND, OpenFlag.O_CREATE, OpenFlag.O_WRONLY] 0o644 = none →
      (writes (messageCreate fs (Session.of selfID selfName)
          (MessageCreate.of channelID authorID authorName content)).trace).length = 1 ∧
      closes (messageCreate fs (Session.of selfID selfName)
          (MessageCreate.of channelID authorID authorName content)).trace = 1 ∧
      (messageCreate fs (Session.of selfID selfName)
          (MessageCreate.of channelID authorID authorName content)).trace.getLast?
        = some .fileClose ∧
      diagnostics (messageCreate fs (Session.of selfID selfName)
          (MessageCreate.of channelID authorID authorName content)).trace
        = if fs.writeString (channelID ++ lit " > (" ++ authorID ++ lit ") " ++ authorName
              ++ lit ": " ++ content ++ lit "\n") = none then 0 else 1) := by
  rw [messageCreate_other fs channelID authorID authorName content selfID selfName hself]
  cases hopen : fs.openFile (lit "discord_chatting_log.txt")
      [OpenFlag.O_APPEND, OpenFlag.O_CREATE, OpenFlag.O_WRONLY] 0o644 with
  | some err => simp [hopen, writes, opens, closes, diagnostics]
  | none =>
    cases hwrite : fs.writeString (channelID ++ lit " > (" ++ authorID ++ lit ") "
        ++ authorName ++ lit ": " ++ content ++ lit "\n") with
    | some err => simp only [hopen, hwrite]; simp [writes, opens, closes, diagnostics]
    | none => simp only [hopen, hwrite]; simp [writes, opens, closes, diagnostics]

/-- A message of U1 on a file system that refuses the open: `messageCreate` returns
normally after one diagnostic, without a write and without a close. -/
theorem messageCreate_logging_is_best_effort_witness :
    lit "U1" ≠ lit "B0" ∧
    (messageCreate FileSys.readOnly (Session.of (lit "B0") (lit "gogo"))
        (MessageCreate.of (lit "C1") (lit "U1") (lit "alice") (lit "hello"))).outcome
      = .returned () ∧
    diagnostics (messageCreate FileSys.readOnly (Session.of (lit "B0") (lit "gogo"))
        (MessageCreate.of (lit "C1") (lit "U1") (lit "alice") (lit "hello"))).trace = 1 ∧
    closes (messageCreate FileSys.readOnly (Session.of (lit "B0") (lit "gogo"))
        (MessageCreate.of (lit "C1") (lit "U1") (lit "alice") (lit "hello"))).trace = 0 :=
  have h := messageCreate_logging_is_best_effort FileSys.readOnly (lit "C1") (lit "U1")
    (lit "alice") (lit "hello") (lit "B0") (lit "gogo") (by decide)
  ⟨by decide, h.1, (h.2.2.1 (by simp [FileSys.readOnly])).1, (h.2.2.1 (by simp [FileSys.readOnly])).2.2⟩

/-! ## The command handler -/

/-- C3. The bot's own message "!test" (author ID equal to the bot's user ID) passes
through `commandHandler` to the routing point: the handler has no self-author check.
The sibling handler `messageCreate` drops the same event at its first statement. -/
theorem commandHandler_routes_own_message :
    commandHandler (Session.of (lit "B0") (lit "gogo"))
        (MessageCreate.of (lit "C1") (lit "B0") (lit "gogo") (lit "!test"))
      = ⟨[], .returned .routing⟩ ∧
    messageCreate FileSys.healthy (Session.of (lit "B0") (lit "gogo"))
        (MessageCreate.of (lit "C1") (lit "B0") (lit "gogo") (lit "!test"))
      = ⟨[], .returned ()⟩ := by
  constructor <;> decide

/-- C4. For every content, `commandHandler` reaches the routing point exactly when
the content is non-empty and its first byte is `!`; otherwise it returns through the
early `return`.  It never panics (the index is only evaluated on a non-empty
content), performs no effect, and rejects the empty content. -/
theorem commandHandler_candidate_iff (s : Session) (channelID : GoString)
    (author : Option User) (content : GoString) :
    ((commandHandler s ⟨some ⟨channelID, author, content⟩⟩).outcome = .returned .routing ↔
      content ≠ [] ∧ content.head? = some '!'.toUInt8) ∧
    ((commandHandler s ⟨some ⟨channelID, author, content⟩⟩).outcome ≠ .returned .routing →
      (commandHandler s ⟨some ⟨channelID, author, content⟩⟩).outcome
        = .returned .notCommand) ∧
    (commandHandler s ⟨some ⟨channelID, author, content⟩⟩).trace = [] ∧
    (content = [] →
      commandHandler s ⟨some ⟨channelID, author, content⟩⟩ = ⟨[], .returned .notCommand⟩) := by
  cases content with
  | nil => simp [commandHandler]
  | cons b rest =>
    by_cases hb : b = '!'.toUInt8
    · simp [commandHandler, hb]
    · simp [commandHandler, hb]

/-! ## Startup and shutdown -/

/-- C5. When `DISCORD_TOKEN` reads as the empty string, `main` performs exactly two
effects, the read of the variable and the fatal diagnostic, and the process exits
with status 1: no gateway call and no storage call occurs, and package `db` is left
untouched. -/
theorem main_empty_token_is_fatal (w : World) (db : Db.State)
    (htoken : w.getenv (lit "DISCORD_TOKEN") = []) :
    (main w db).trace
      = [.getenv (lit "DISCORD_TOKEN"),
          .logFatal (lit "DISCORD_TOKEN must be set in .env file")] ∧
    (main w db).outcome = .exited 1 ∧
    (∀ e ∈ (main w db).trace, isGatewayCall e = false ∧ isStorageCall e = false) ∧
    (main w db).db = db := by
  have h : main w db
      = ⟨[.getenv (lit "DISCORD_TOKEN"),
            .logFatal (lit "DISCORD_TOKEN must be set in .env file")], .exited 1, db⟩ := by
    simp [main, htoken]
  rw [h]
  simp [isGatewayCall, isStorageCall]

/-- Startup in a world without a token: the fatal diagnostic follows the read of the
variable, and nothing else happens. -/
theorem main_empty_token_is_fatal_witness :
    World.noToken.getenv (lit "DISCORD_TOKEN") = [] ∧
    (main World.noToken Db.State.initial).trace
      = [.getenv (lit "DISCORD_TOKEN"),
          .logFatal (lit "DISCORD_TOKEN must be set in .env file")] ∧
    (main World.noToken Db.State.initial).outcome = .exited 1 :=
  ⟨rfl, (main_empty_token_is_fatal World.noToken Db.State.initial rfl).1,
    (main_empty_token_is_fatal World.noToken Db.State.initial rfl).2.1⟩

/-- C6. A run of `main` with a token, a gateway that opens, a storage that connects
and a SIGTERM: after the signal the only effect is the gateway close, then `main`
returns with the MongoDB client still set.  No run of `main` ever disconnects
storage, while `DisconnectDB` on the state this run leaves would do so. -/
theorem main_teardown_skips_storage :
    (main World.healthy Db.State.initial).trace
      = [.getenv (lit "DISCORD_TOKEN"), .discordNew (lit "Bot secret"),
          .setIntents [.IntentsGuildMessages, .IntentsMessageContent],
          .addHandler .ready, .addHandler .messageCreate, .addHandler .commandHandler,
          .gatewayOpen,
          .mongoConnect 10 (lit "mongodb://mongodb:27017"), .mongoPing 10,
          .logPrintln (lit "Successfully connected to MongoDB"),
          .fmtPrintln (lit "Bot is now running. Press CTRL-C to exit."),
          .signalNotify [.SIGINT, .SIGTERM],
          .signalReceive .SIGTERM, .gatewayClose] ∧
    (main World.healthy Db.State.initial).outcome = .returned () ∧
    (main World.healthy Db.State.initial).db.Client = some ⟨1⟩ ∧
    (∀ (w : World) (db : Db.State) (t : Nat), Effect.mongoDisconnect t ∉ (main w db).trace) ∧
    (Db.DisconnectDB World.healthy.mongo (main World.healthy Db.State.initial).db).1
      = [.mongoDisconnect 10] := by
  refine ⟨by decide, by decide, by decide, ?_, by decide⟩
  intro w db t
  have hc := Db.ConnectToDB_never_disconnects w.mongo db t
  unfold main connectToDB
  simp only []
  split
  · simp
  · split
    · simp
    · split
      · simp
      · split
        · simp [hc]
        · split <;> simp [hc]

end Bot

/-! ## The storage connection -/

namespace Db

/-- C7. `ConnectToDB` returns the error `e` exactly when the connect step fails with
`e`, or the connect step succeeds and the ping of the new client fails with `e`.
When it returns an error, `Client` and `DB` are as before the call; when it returns
nil, both steps succeeded, `Client` is the new client and `DB` is that client's
database named "hots". -/
theorem ConnectToDB_error_iff (drv : Driver) (st : State) :
    (∀ e, (ConnectToDB drv st).err = some e ↔
      (drv.connect 10 (lit "mongodb://mongodb:27017") = .error e ∨
        ∃ c, drv.connect 10 (lit "mongodb://mongodb:27017") = .ok c ∧
          drv.ping 10 c = some e)) ∧
    ((ConnectToDB drv st).err ≠ none → (ConnectToDB drv st).state = st) ∧
    ((ConnectToDB drv st).err = none →
      ∃ c, drv.connect 10 (lit "mongodb://mongodb:27017") = .ok c ∧ drv.ping 10 c = none ∧
        (ConnectToDB drv st).state = ⟨some c, some ⟨c, lit "hots"⟩⟩) := by
  refine ⟨?_, ConnectToDB_state_of_error drv st, ?_⟩
  · intro e
    unfold ConnectToDB
    simp only []
    cases hc : drv.connect 10 (lit "mongodb://mongodb:27017") with
    | error e0 => simp
    | ok c =>
      cases hp : drv.ping 10 c with
      | some e1 => simp [hp]
      | none => simp [hp]
  · unfold ConnectToDB
    simp only []
    cases hc : drv.connect 10 (lit "mongodb://mongodb:27017") with
    | error e0 => simp
    | ok c =>
      cases hp : drv.ping 10 c with
      | some e1 => simp [hp]
      | none => simp [hp, Client.Database]

/-- C8, as stated, fails: before any connect `GetCollection` ends in the run-time
panic of a nil pointer dereference, which is not a panic with an error value (and
the function has no error result). -/
theorem GetCollection_no_NotConnected_error :
    GetCollection State.initial (lit "users") = .panicked .nilDereference ∧
    ¬ ∃ err, GetCollection State.initial (lit "users") = .panicked (.value err) := by
  constructor
  · rfl
  · rintro ⟨err, h⟩
    simp [GetCollection, Collection.of, State.initial] at h

/-- C8, amended. In every reachable package state and for every collection name:
while `DB` is nil `GetCollection` returns no handle, it panics with a nil pointer
dereference; and whenever it returns a handle, that handle is the named collection
of `DB`, and the state is the one left by a successful `ConnectToDB`. -/
theorem GetCollection_handle_only_after_connect (st : State) (name : GoString)
    (hreach : Reachable st) :
    (st.DB = none → GetCollection st name = .panicked .nilDereference) ∧
    (∀ c, GetCollection st name = .returned c →
      (∃ d, st.DB = some d ∧ c = ⟨d, name⟩) ∧
      ∃ drv st0, (ConnectToDB drv st0).err = none ∧ (ConnectToDB drv st0).state = st) := by
  constructor
  · intro h
    simp [GetCollection, Collection.of, h]
  · intro c hc
    cases hdb : st.DB with
    | none => simp [GetCollection, Collection.of, hdb] at hc
    | some d =>
      simp only [GetCollection, Collection.of, hdb, Outcome.returned.injEq] at hc
      refine ⟨⟨d, rfl, hc.symm⟩, ?_⟩
      rcases hreach.initial_or_connected with h0 | h1
      · rw [h0] at hdb
        simp [State.initial] at hdb
      · exact h1

/-- After a successful connect, the handle of collection "users" is the collection
of the database published in `DB`. -/
theorem GetCollection_handle_only_after_connect_witness :
    Reachable (ConnectToDB (Bot.Driver.up 1) State.initial).state ∧
    ∃ d, (ConnectToDB (Bot.Driver.up 1) State.initial).state.DB = some d ∧
      (⟨⟨⟨1⟩, lit "hots"⟩, lit "users"⟩ : Collection) = ⟨d, lit "users"⟩ :=
  ⟨.connect _ _ .initial,
    ((GetCollection_handle_only_after_connect
      (ConnectToDB (Bot.Driver.up 1) State.initial).state (lit "users")
      (.connect _ _ .initial)).2 _ rfl).1⟩

end Db

end Digo
